import Mathlib

/-
  Verification development for the rsvp HTTP server (src/main.go).

  The Go program is embedded shallowly:
  * the process environment is a partial map `String → Option String`
    (distinguishing unset from set-to-empty, as os.LookupEnv does);
  * the `.env` fallback file is the list of its lines (bufio.Scanner output);
  * `log.Fatal` / `os.Exit(1)` paths are `Except.error` results;
  * the embedded template tree is the list of entries `fs.WalkDir` visits,
    in walk order;
  * the users table is the result set of the handler's query, a list of rows.
-/

set_option autoImplicit false

namespace RsvpMain

/-- The live process environment: `os.LookupEnv` semantics. `none` means the
variable is unset; `some ""` means set to the empty string. -/
abbrev Env := String → Option String

/-- `os.Setenv k v` on an environment. -/
def updateEnv (env : Env) (k v : String) : Env :=
  fun x => if x = k then some v else env x

/-- Splitting a list of characters at every occurrence of the separator
character. Implements the semantics of Go's `strings.Split(line, "=")` from
`loadEnv` (src/main.go line 43): `n` separators yield `n+1` pieces, and the
empty string yields one empty piece. Structural recursion so that concrete
instances evaluate in the kernel. -/
def splitEqAux : List Char → List (List Char)
  | [] => [[]]
  | c :: rest =>
    if c = '=' then [] :: splitEqAux rest
    else
      match splitEqAux rest with
      | s :: ss => (c :: s) :: ss
      | [] => [[c]]

/-- `strings.Split(line, "=")` as used in `loadEnv`. -/
def splitEnvLine (line : String) : List String :=
  (splitEqAux line.data).map String.mk

/-- A `.env` line is well-formed when it splits into exactly two parts on
`"="` (the `len(parts) != 2` check of src/main.go line 44). -/
def wellFormedLine (line : String) : Bool :=
  (splitEnvLine line).length == 2

/-- `loadEnv` (src/main.go lines 32–57) over the list of lines of `.env`:
each line must split into exactly two parts on `"="`, otherwise the process
dies with `log.Fatalf("Malformed line in .env: %s", line)` (modelled as
`Except.error` carrying that message); a well-formed `KEY=VALUE` line sets
`KEY` only when it is unset in the live environment. -/
def loadEnv : Env → List String → Except String Env
  | env, [] => .ok env
  | env, line :: rest =>
    match splitEnvLine line with
    | [k, v] => loadEnv (if (env k).isSome then env else updateEnv env k v) rest
    | _ => .error ("Malformed line in .env: " ++ line)

/-- The value of the first well-formed `.env` line whose key is `k`
(the occurrence that `loadEnv` would inject when `k` is unset). -/
def firstKeyValue : List String → String → Option String
  | [], _ => none
  | line :: rest, k =>
    match splitEnvLine line with
    | [k0, v] => if k0 = k then some v else firstKeyValue rest k
    | _ => firstKeyValue rest k

/-- `fetchEnv` (src/main.go lines 115–123): required lookup. The `.error`
branch models the diagnostic `ENV variable %s is not set` followed by
`os.Exit(1)`. -/
def fetchEnv (env : Env) (name : String) : Except String String :=
  match env name with
  | none => .error ("ENV variable " ++ name ++ " is not set")
  | some v => .ok v

/-- `fetchEnvDef` (src/main.go lines 125–131): optional lookup with default. -/
def fetchEnvDef (env : Env) (name default_value : String) : String :=
  match env name with
  | none => default_value
  | some v => v

/-- One entry visited by `fs.WalkDir(templateFS, ".", ...)` in `loadTemplates`
(src/main.go lines 59–85), in walk order: a directory, a regular file (with
its body, or a read/open error for it), or a traversal error (the callback's
non-nil `err`, src/main.go line 62). -/
inductive WalkItem where
  | dir (path : String)
  | file (path : String) (readErr : Option String) (body : String)
  | walkErr (msg : String)
  deriving DecidableEq

/-- Go's `strings.HasPrefix` over the two strings' character lists. -/
def hasPre (s p : String) : Bool :=
  p.data.isPrefixOf s.data

/-- Go's `strings.HasSuffix` over the two strings' character lists. -/
def hasSuf (s suf : String) : Bool :=
  suf.data.isSuffixOf s.data

/-- `strings.TrimPrefix(s, p)`: drop `p` from the front when present. -/
def stripPre (s p : String) : String :=
  if hasPre s p then String.mk (s.data.drop p.data.length) else s

/-- `strings.TrimSuffix(s, suf)`: drop `suf` from the end when present. -/
def stripSuf (s suf : String) : String :=
  if hasSuf s suf then String.mk (s.data.take (s.data.length - suf.data.length)) else s

/-- The logical template name of a walked path (src/main.go lines 67–68):
strip the leading `templates/` segment, then the `.tmpl` extension. -/
def logicalName (path : String) : String :=
  stripSuf (stripPre path "templates/") ".tmpl"

/-- The template registry: the name → body associations held by the shared
root template namespace (`rootTemplate`). Only successfully parsed bodies are
associated — `text/template` associates a name with the root namespace when
`Parse` succeeds, so a body whose `Parse` errors leaves no association. By
construction names are unique. -/
abbrev Registry := List (String × String)

/-- Associating a name with a parsed body in the shared namespace
(`rootTemplate.New(name).Parse(...)` succeeding): a second registration of
the same name replaces the first, silently. -/
def addTemplate : Registry → String → String → Registry
  | [], name, b => [(name, b)]
  | (n, b0) :: rest, name, b =>
    if n = name then addTemplate rest name b
    else (n, b0) :: addTemplate rest name b

/-- Looking a template up by name in the registry. -/
def lookupTemplate : Registry → String → Option String
  | [], _ => none
  | (n, b) :: rest, name => if n = name then some b else lookupTemplate rest name

/-- The walk callback of `loadTemplates` (src/main.go lines 61–82), folded
over the walked entries. A traversal error or a file read/open error is
`log.Fatal` (`Except.error`); a directory is skipped; for a file, the body is
handed to `Parse`, whose error return is discarded (src/main.go line 79) — a
body that fails to parse (`parseOk body = false`) leaves the registry
unchanged and startup continues. `parseOk` abstracts Go template syntax:
whether `Parse` succeeds on a given body. -/
def walkTemplates (parseOk : String → Bool) : Registry → List WalkItem → Except String Registry
  | reg, [] => .ok reg
  | reg, WalkItem.dir _ :: rest => walkTemplates parseOk reg rest
  | _, WalkItem.walkErr m :: _ => .error m
  | _, WalkItem.file _ (some m) _ :: _ => .error m
  | reg, WalkItem.file path none body :: rest =>
    if parseOk body then walkTemplates parseOk (addTemplate reg (logicalName path) body) rest
    else walkTemplates parseOk reg rest

/-- `loadTemplates` (src/main.go lines 59–85): build the registry from the
embedded tree, starting from the fresh empty root namespace. -/
def loadTemplates (parseOk : String → Bool) (tree : List WalkItem) : Except String Registry :=
  walkTemplates parseOk [] tree

/-- `render` (src/main.go lines 133–138) stripped to its failure contract:
`rootTemplate.ExecuteTemplate(w, name, data)` fails when no template is
associated with `name`; execution of an associated, parsed template with
suitable data succeeds. (The Go wrapper turns the error into `log.Fatal`,
killing the process at first failing render.) -/
def render (reg : Registry) (name : String) : Except String Unit :=
  match lookupTemplate reg name with
  | some _ => .ok ()
  | none => .error ("no template associated with name " ++ name)

/-- One value in a row of the query's result set, with its backend type. -/
inductive DBVal where
  | intVal (i : Int)
  | strVal (s : String)
  deriving DecidableEq

/-- A row of the result set of `select * from users`. -/
abbrev Row := List DBVal

/-- The per-request `User` record of `Handler.ServeHTTP`
(src/main.go lines 147–150). -/
structure User where
  Id : Int
  Name : String
  deriving DecidableEq

/-- `row.Scan(&u.Id, &u.Name)`: binding one result row to the two
destinations. The scan fails unless the row has exactly two columns of the
destination types (a column that fails to bind to its destination field is an
error). -/
def scanUser : Row → Except String User
  | [DBVal.intVal i, DBVal.strVal s] => .ok ⟨i, s⟩
  | _ => .error "scan failed: row does not bind to destinations (int, string)"

/-- `h.db.QueryRow(ctx, q).Scan(dest...)`. Modelled from the documented
behaviour of the external pgx v5 client (`Conn.QueryRow` / `Row.Scan`, not
part of this repository): with an empty result set `Scan` returns
`pgx.ErrNoRows` ("no rows in result set"); otherwise it scans the FIRST row,
closes the result set and discards any additional rows — extra rows are not
an error. -/
def queryRowScanUser : List Row → Except String User
  | [] => .error "no rows in result set"
  | r :: _ => scanUser r

/-- The anonymous projection `struct{ Name string }{Name: u.Name}` passed to
`render` (src/main.go line 158): it exposes only the `Name` field. -/
structure HelloProjection where
  Name : String
  deriving DecidableEq

/-- What one run of `Handler.ServeHTTP` does after the query: die via
`log.Fatalf` (process-fatal), or invoke `render` on a template name with a
`HelloProjection`. -/
inductive HandlerResult where
  | fatal (msg : String)
  | rendered (templateName : String) (data : HelloProjection)
  deriving DecidableEq

/-- Whether a handler run was process-fatal. -/
def isFatal : HandlerResult → Bool
  | HandlerResult.fatal _ => true
  | HandlerResult.rendered _ _ => false

/-- The text of the one query `Handler.ServeHTTP` executes
(src/main.go line 153). -/
def helloQuery : String := "select * from users"

/-- `Handler.ServeHTTP` (src/main.go lines 146–159). The request's method
and path are taken but never inspected. The first component lists the texts
of the queries the handler executes, in order; the second is the outcome:
`log.Fatalf("Query failed: %v", err)` on a query/scan error, otherwise a call
to `render` with the `"hello"` template and the `Name`-only projection. -/
def serveHTTP (method path : String) (users : List Row) : List String × HandlerResult :=
  ([helloQuery],
    match queryRowScanUser users with
    | .error e => HandlerResult.fatal ("Query failed: " ++ e)
    | .ok u => HandlerResult.rendered "hello" ⟨u.Name⟩)

/-- Which of the two registered handlers serves a request. -/
inductive ServedBy where
  | admin
  | primary
  deriving DecidableEq

/-- Dispatch of the two-route `http.ServeMux` of `main`
(src/main.go lines 109–110): pattern `adminPath` (ending in `/`, a subtree
pattern) and the catch-all `/`. The longest matching pattern wins, so a path
under `adminPath` goes to the `AdminHandler` and every other path falls
through to the primary `Handler`. -/
def routeOf (adminPath path : String) : ServedBy :=
  if hasPre path adminPath then ServedBy.admin else ServedBy.primary

/-- `AdminHandler.ServeHTTP` (src/main.go lines 165–167): the fixed
plain-text body it writes. -/
def adminResponseBody : String := "Admin foo"

/-- Observable outcome of one process start (`init` then `main`,
src/main.go lines 26–30 and 96–113). `connects` counts the connections
established by `pgx.Connect`; `handlerConn` is the index (1-based, in order
of establishment) of the connection the primary `Handler` is constructed
with; `deferredClose` lists the connections whose `Close` is deferred to
shutdown of `main`. -/
structure BootRecord where
  envLoaded : Bool
  templatesBuilt : Bool
  connects : Nat
  handlerConn : Option Nat
  deferredClose : List Nat
  adminPath : Option String
  listenPort : Option String
  fatalMsg : Option String

/-- The whole bootstrap, in source order. `init` (src/main.go lines 26–30)
runs `loadEnv`, `loadTemplates`, then `connectDB` — whose returned connection
is DISCARDED (line 29: the `*pgx.Conn` return value is not used). Then `main`
(lines 96–113) resolves `PORT` via `fetchEnv`, calls `connectDB` a second
time, defers that connection's `Close`, resolves `ADMIN_PATH` via
`fetchEnvDef`, registers the two handlers and listens. `connectOk` abstracts
whether `pgx.Connect` succeeds against the configured backend; `connectDB`
is `log.Fatal` on failure (lines 87–94). -/
def bootProcess (env0 : Env) (lines : List String) (parseOk : String → Bool)
    (tree : List WalkItem) (connectOk : Bool) : BootRecord :=
  match loadEnv env0 lines with
  | .error e =>
    ⟨false, false, 0, none, [], none, none, some e⟩
  | .ok env1 =>
    match loadTemplates parseOk tree with
    | .error e =>
      ⟨true, false, 0, none, [], none, none, some e⟩
    | .ok _ =>
      if connectOk then
        match fetchEnv env1 "PORT" with
        | .error e =>
          ⟨true, true, 1, none, [], none, none, some e⟩
        | .ok port =>
          ⟨true, true, 2, some 2, [2], some (fetchEnvDef env1 "ADMIN_PATH" "/admin/"),
            some port, none⟩
      else
        ⟨true, true, 0, none, [], none, none, some "pgx connect failed"⟩

/-- A key that is set before `loadEnv` keeps its value: each line only ever
sets a key that is unset. -/
theorem loadEnv_keeps : ∀ (lines : List String) (env0 env1 : Env) (k w : String),
    loadEnv env0 lines = .ok env1 → env0 k = some w → env1 k = some w := by
  intro lines
  induction lines with
  | nil =>
    intro env0 env1 k w h hw
    simp only [loadEnv, Except.ok.injEq] at h
    subst h
    exact hw
  | cons line rest ih =>
    intro env0 env1 k w h hw
    simp only [loadEnv] at h
    rcases hs : splitEnvLine line with _ | ⟨a, _ | ⟨b, _ | ⟨c, tl⟩⟩⟩ <;> simp only [hs] at h
    · exact absurd h (by simp)
    · exact absurd h (by simp)
    · by_cases hset : (env0 a).isSome
      · rw [if_pos hset] at h
        exact ih _ _ k w h hw
      · rw [if_neg hset] at h
        refine ih _ _ k w h ?_
        have hka : k ≠ a := by
          intro e
          subst e
          rw [hw] at hset
          simp at hset
        simpa [updateEnv, hka] using hw
    · exact absurd h (by simp)

/-- A key that is unset before `loadEnv` ends up with the value of the first
well-formed line bearing that key (or stays unset when there is none). -/
theorem loadEnv_new : ∀ (lines : List String) (env0 env1 : Env) (k : String),
    loadEnv env0 lines = .ok env1 → env0 k = none →
    env1 k = firstKeyValue lines k := by
  intro lines
  induction lines with
  | nil =>
    intro env0 env1 k h hk
    simp only [loadEnv, Except.ok.injEq] at h
    subst h
    simpa [firstKeyValue] using hk
  | cons line rest ih =>
    intro env0 env1 k h hk
    simp only [loadEnv] at h
    simp only [firstKeyValue]
    rcases hs : splitEnvLine line with _ | ⟨a, _ | ⟨b, _ | ⟨c, tl⟩⟩⟩ <;> simp only [hs] at h ⊢
    · exact absurd h (by simp)
    · exact absurd h (by simp)
    · by_cases hak : a = k
      · subst hak
        rw [hk] at h
        simp only [Option.isSome_none, Bool.false_eq_true, if_false] at h
        rw [if_pos rfl]
        exact loadEnv_keeps rest _ _ a b h (by simp [updateEnv])
      · rw [if_neg hak]
        by_cases hset : (env0 a).isSome
        · rw [if_pos hset] at h
          exact ih _ _ k h hk
        · rw [if_neg hset] at h
          refine ih _ _ k h ?_
          have hka : k ≠ a := fun e => hak e.symm
          simpa [updateEnv, hka] using hk
    · exact absurd h (by simp)

/-- `loadEnv` dies at the first malformed line, with the diagnostic carrying
that line verbatim. -/
theorem loadEnv_malformed : ∀ (pre : List String) (env0 : Env) (l : String) (suf : List String),
    (∀ x ∈ pre, wellFormedLine x = true) → wellFormedLine l = false →
    loadEnv env0 (pre ++ l :: suf) = .error ("Malformed line in .env: " ++ l) := by
  intro pre
  induction pre with
  | nil =>
    intro env0 l suf _ hl
    simp only [List.nil_append, loadEnv]
    rcases hs : splitEnvLine l with _ | ⟨a, _ | ⟨b, _ | ⟨c, tl⟩⟩⟩ <;> simp only [hs]
    · rw [wellFormedLine, hs] at hl
      simp at hl
  | cons x pre' ih =>
    intro env0 l suf hpre hl
    have hx : wellFormedLine x = true := hpre x (List.mem_cons_self x pre')
    have hlen : (splitEnvLine x).length = 2 := by
      rw [wellFormedLine] at hx
      simpa using hx
    obtain ⟨a, b, hab⟩ := List.length_eq_two.mp hlen
    simp only [List.cons_append, loadEnv, hab]
    exact ih _ l suf (fun y hy => hpre y (List.mem_cons_of_mem x hy)) hl

/-- Claim C5: a `.env` line with zero or two-or-more `=` separators is a
startup-fatal malformed-input error: the process dies with a diagnostic
containing the line verbatim (`Malformed line in .env: <line>`), and neither
the template registry construction nor any database connection happens
afterwards (`init` runs `loadEnv` before `loadTemplates` and `connectDB`).
Stated for the first malformed line of the file — the one the diagnostic
reports. -/
theorem c5_malformed_line_fatal (env0 : Env) (parseOk : String → Bool)
    (tree : List WalkItem) (connectOk : Bool)
    (pre : List String) (l : String) (suf : List String)
    (hpre : ∀ x ∈ pre, wellFormedLine x = true) (hl : wellFormedLine l = false) :
    (bootProcess env0 (pre ++ l :: suf) parseOk tree connectOk).fatalMsg
      = some ("Malformed line in .env: " ++ l)
    ∧ (bootProcess env0 (pre ++ l :: suf) parseOk tree connectOk).templatesBuilt = false
    ∧ (bootProcess env0 (pre ++ l :: suf) parseOk tree connectOk).connects = 0 := by
  have hload := loadEnv_malformed pre env0 l suf hpre hl
  refine ⟨?_, ?_, ?_⟩ <;> simp only [bootProcess, hload]

/-- Claim C5 witness: a file whose second line `X==Y` has two separators
kills startup with that line in the diagnostic, before any template or
database initialization. -/
theorem c5_malformed_line_fatal_witness :
    (bootProcess (fun _ => none) (["A=1"] ++ "X==Y" :: []) (fun _ => true)
        [WalkItem.dir "."] true).fatalMsg = some ("Malformed line in .env: " ++ "X==Y")
    ∧ (bootProcess (fun _ => none) (["A=1"] ++ "X==Y" :: []) (fun _ => true)
        [WalkItem.dir "."] true).templatesBuilt = false
    ∧ (bootProcess (fun _ => none) (["A=1"] ++ "X==Y" :: []) (fun _ => true)
        [WalkItem.dir "."] true).connects = 0 :=
  c5_malformed_line_fatal (fun _ => none) (fun _ => true) [WalkItem.dir "."] true
    ["A=1"] "X==Y" [] (by decide) (by decide)

/-- Claim C6: for every well-formed `KEY=VALUE` line of the fallback file,
if `KEY` is unset in the live environment before loading then the
environment afterwards maps `KEY` to exactly `VALUE` (for the first line
bearing `KEY` — later duplicates find the key set and are no-ops), and if
`KEY` was already set its value is unchanged: environment precedence. -/
theorem c6_env_precedence (env0 env1 : Env) (lines : List String) (k : String)
    (h : loadEnv env0 lines = .ok env1) :
    (∀ w, env0 k = some w → env1 k = some w)
    ∧ (env0 k = none → ∀ v, firstKeyValue lines k = some v → env1 k = some v) := by
  refine ⟨fun w hw => loadEnv_keeps lines env0 env1 k w h hw, fun hk v hv => ?_⟩
  rw [loadEnv_new lines env0 env1 k h hk, hv]

/-- Claim C6 witness: loading `["A=2", "B=3"]` over an environment where
`A=1` and `B` is unset leaves `A` at `1` and sets `B` to `3`. -/
theorem c6_env_precedence_witness :
    loadEnv (fun x => if x = "A" then some "1" else none) ["A=2", "B=3"]
      = .ok (updateEnv (fun x => if x = "A" then some "1" else none) "B" "3")
    ∧ updateEnv (fun x => if x = "A" then some "1" else none) "B" "3" "A" = some "1"
    ∧ updateEnv (fun x => if x = "A" then some "1" else none) "B" "3" "B" = some "3" :=
  ⟨rfl,
    (c6_env_precedence (fun x => if x = "A" then some "1" else none) _ ["A=2", "B=3"] "A"
      rfl).1 "1" rfl,
    (c6_env_precedence (fun x => if x = "A" then some "1" else none) _ ["A=2", "B=3"] "B"
      rfl).2 rfl "3" rfl⟩

/-- Claim C7: after the fallback file is loaded, the required lookup
`fetchEnv` fails the process with a diagnostic naming the key exactly when
the key is absent from both the live environment and the fallback source,
and otherwise returns the resolved value; the optional lookup `fetchEnvDef`
never fails, returning the supplied default when the key is absent from both
sources and the resolved value otherwise. -/
theorem c7_required_optional_lookup (env0 env1 : Env) (lines : List String) (k d : String)
    (h : loadEnv env0 lines = .ok env1) :
    (env0 k = none → firstKeyValue lines k = none →
        fetchEnv env1 k = .error ("ENV variable " ++ k ++ " is not set")
        ∧ fetchEnvDef env1 k d = d)
    ∧ (∀ v, env0 k = some v → fetchEnv env1 k = .ok v ∧ fetchEnvDef env1 k d = v)
    ∧ (∀ v, env0 k = none → firstKeyValue lines k = some v →
        fetchEnv env1 k = .ok v ∧ fetchEnvDef env1 k d = v) := by
  refine ⟨fun hk hv => ?_, fun v hv => ?_, fun v hk hv => ?_⟩
  · have : env1 k = none := by rw [loadEnv_new lines env0 env1 k h hk, hv]
    exact ⟨by simp [fetchEnv, this], by simp [fetchEnvDef, this]⟩
  · have : env1 k = some v := loadEnv_keeps lines env0 env1 k v h hv
    exact ⟨by simp [fetchEnv, this], by simp [fetchEnvDef, this]⟩
  · have : env1 k = some v := by rw [loadEnv_new lines env0 env1 k h hk, hv]
    exact ⟨by simp [fetchEnv, this], by simp [fetchEnvDef, this]⟩

/-- Claim C7 witness: after loading `["B=3"]` over the empty environment,
the required lookup of the absent `PORT` fails naming it while `B` resolves
to `3`, and the optional lookup returns the default for `PORT` and the
resolved value for `B`. -/
theorem c7_required_optional_lookup_witness :
    (fetchEnv (updateEnv (fun _ => none) "B" "3") "PORT"
        = .error ("ENV variable " ++ "PORT" ++ " is not set")
      ∧ fetchEnvDef (updateEnv (fun _ => none) "B" "3") "PORT" "/admin/" = "/admin/")
    ∧ (fetchEnv (updateEnv (fun _ => none) "B" "3") "B" = .ok "3"
      ∧ fetchEnvDef (updateEnv (fun _ => none) "B" "3") "B" "/admin/" = "3") :=
  ⟨(c7_required_optional_lookup (fun _ => none) _ ["B=3"] "PORT" "/admin/" rfl).1 rfl rfl,
    (c7_required_optional_lookup (fun _ => none) _ ["B=3"] "B" "/admin/" rfl).2.2 "3" rfl rfl⟩

/-- Claim C1 (counterexample): the primary handler's single query does not
have the text `select id, name from users` — on any request (here a GET of
`/` against a one-row table) the query issued is `select * from users`. -/
theorem c1_query_text_counterexample :
    (serveHTTP "GET" "/" [[DBVal.intVal 1, DBVal.strVal "Ada"]]).1
      ≠ ["select id, name from users"] := by
  decide

/-- Claim C1 (amended): on every request, regardless of path or method, the
primary handler performs exactly one database query, whose text is
`select * from users`; it binds the resulting row into a `User` record with
integer `Id` and string `Name`, and renders the template named `"hello"`
with a data projection exposing only the `Name` field. -/
theorem c1_single_query_and_projection (method path : String) (users : List Row) :
    (serveHTTP method path users).1 = [helloQuery]
    ∧ helloQuery = "select * from users"
    ∧ (∀ r rest u, users = r :: rest → scanUser r = .ok u →
        (serveHTTP method path users).2 = HandlerResult.rendered "hello" (HelloProjection.mk u.Name)) := by
  refine ⟨rfl, rfl, ?_⟩
  intro r rest u hrows hscan
  subst hrows
  simp [serveHTTP, queryRowScanUser, hscan]

/-- Claim C1 witness: at a concrete request and one-row table, the handler
issues exactly the query `select * from users` and renders `"hello"` with
the projection `Name = "Ada"`. -/
theorem c1_single_query_and_projection_witness :
    (serveHTTP "GET" "/somewhere" [[DBVal.intVal 1, DBVal.strVal "Ada"]]).1 = [helloQuery]
    ∧ (serveHTTP "GET" "/somewhere" [[DBVal.intVal 1, DBVal.strVal "Ada"]]).2
        = HandlerResult.rendered "hello" (HelloProjection.mk "Ada") :=
  ⟨(c1_single_query_and_projection "GET" "/somewhere" [[DBVal.intVal 1, DBVal.strVal "Ada"]]).1,
    (c1_single_query_and_projection "GET" "/somewhere"
      [[DBVal.intVal 1, DBVal.strVal "Ada"]]).2.2
      [DBVal.intVal 1, DBVal.strVal "Ada"] [] (User.mk 1 "Ada") rfl rfl⟩

/-- Claim C2 (counterexample): with a users table containing exactly two
rows, a request to the primary handler does not fail — it succeeds,
rendering the first row's name (`pgx`'s `Row.Scan` scans the first row and
discards the rest). -/
theorem c2_two_rows_counterexample :
    (serveHTTP "GET" "/" [[DBVal.intVal 1, DBVal.strVal "Ada"],
        [DBVal.intVal 2, DBVal.strVal "Bob"]]).2
      = HandlerResult.rendered "hello" (HelloProjection.mk "Ada")
    ∧ isFatal (serveHTTP "GET" "/" [[DBVal.intVal 1, DBVal.strVal "Ada"],
        [DBVal.intVal 2, DBVal.strVal "Bob"]]).2 = false :=
  ⟨rfl, rfl⟩

/-- Claim C2 (amended): for the store's single-row fetch, a query returning
zero rows fails, and a first row any of whose columns fails to bind to its
destination field fails — and under the current design this failure is fatal
to the process (`log.Fatalf("Query failed: ...")`). Rows after the first are
discarded: with a users table containing exactly two rows, the request
succeeds with the first row. -/
theorem c2_first_row_semantics (method path : String) (rows : List Row) :
    (rows = [] →
        (serveHTTP method path rows).2 = HandlerResult.fatal ("Query failed: " ++ "no rows in result set"))
    ∧ (∀ r rest e, rows = r :: rest → scanUser r = .error e →
        (serveHTTP method path rows).2 = HandlerResult.fatal ("Query failed: " ++ e))
    ∧ (∀ r rest u, rows = r :: rest → scanUser r = .ok u →
        (serveHTTP method path rows).2 = HandlerResult.rendered "hello" (HelloProjection.mk u.Name)) := by
  refine ⟨?_, ?_, ?_⟩
  · intro h; subst h; rfl
  · intro r rest e hrows hscan; subst hrows
    simp [serveHTTP, queryRowScanUser, hscan]
  · intro r rest u hrows hscan; subst hrows
    simp [serveHTTP, queryRowScanUser, hscan]

/-- Claim C2 witness: concretely, the empty table is a process-fatal query
failure, and a row whose column types do not bind is a process-fatal scan
failure. -/
theorem c2_first_row_semantics_witness :
    (serveHTTP "GET" "/" ([] : List Row)).2
      = HandlerResult.fatal ("Query failed: " ++ "no rows in result set")
    ∧ (serveHTTP "GET" "/" [[DBVal.strVal "oops"]]).2
      = HandlerResult.fatal
          ("Query failed: " ++ "scan failed: row does not bind to destinations (int, string)") :=
  ⟨(c2_first_row_semantics "GET" "/" []).1 rfl,
    (c2_first_row_semantics "GET" "/" [[DBVal.strVal "oops"]]).2.1
      [DBVal.strVal "oops"] [] _ rfl rfl⟩

/-- Claim C3: the claim says a template compile failure during registry
construction is startup-fatal and never yields a registry that only fails at
first render. The code contradicts it: `loadTemplates` discards the error
returned by `Parse` (src/main.go line 79), so with a tree whose only
template body fails to compile, startup succeeds with the name left
unregistered, and the first render of that name fails (and the Go `render`
wrapper turns that into `log.Fatal` at request time). Read and traversal
errors, by contrast, are startup-fatal as claimed. -/
theorem c3_compile_failure_not_fatal :
    loadTemplates (fun _ => false)
        [WalkItem.dir ".", WalkItem.dir "templates",
          WalkItem.file "templates/broken.tmpl" none "BROKEN"] = .ok []
    ∧ render [] "broken" = .error ("no template associated with name " ++ "broken")
    ∧ loadTemplates (fun _ => false) [WalkItem.walkErr "walk failed"] = .error "walk failed"
    ∧ loadTemplates (fun _ => false)
        [WalkItem.file "templates/a.tmpl" (some "read failed") ""] = .error "read failed" :=
  ⟨rfl, rfl, rfl, rfl⟩

/-- Claim C4: the claim says exactly one connection is established over the
process lifetime. The code establishes two: `init` calls `connectDB` and
discards the returned connection (src/main.go line 29), then `main` calls
`connectDB` again (line 100) and the primary handler is constructed with
that second connection (line 110); only the second connection's close is
deferred, the first is never closed. Evaluated at a successful startup. -/
theorem c4_two_connections :
    (bootProcess
        (fun k => if k = "PORT" then some "8080"
          else if k = "DATABASE_URL" then some "postgres" else none)
        [] (fun _ => true) [] true).connects = 2
    ∧ (bootProcess
        (fun k => if k = "PORT" then some "8080"
          else if k = "DATABASE_URL" then some "postgres" else none)
        [] (fun _ => true) [] true).handlerConn = some 2
    ∧ (bootProcess
        (fun k => if k = "PORT" then some "8080"
          else if k = "DATABASE_URL" then some "postgres" else none)
        [] (fun _ => true) [] true).deferredClose = [2]
    ∧ (bootProcess
        (fun k => if k = "PORT" then some "8080"
          else if k = "DATABASE_URL" then some "postgres" else none)
        [] (fun _ => true) [] true).fatalMsg = none :=
  ⟨rfl, rfl, rfl, rfl⟩

/-- Claim C10: a fallback line `KEY=` (one separator, empty value) is
well-formed: loading it into an environment where `KEY` is unset injects the
empty string, and the required lookup `fetchEnv` then succeeds and returns
the empty string instead of failing the process. -/
theorem c10_empty_value_satisfies_required :
    wellFormedLine "KEY=" = true
    ∧ loadEnv (fun _ => none) ["KEY="] = .ok (updateEnv (fun _ => none) "KEY" "")
    ∧ updateEnv (fun _ => none) "KEY" "" "KEY" = some ""
    ∧ fetchEnv (updateEnv (fun _ => none) "KEY" "") "KEY" = .ok "" :=
  ⟨rfl, rfl, rfl, rfl⟩

/-- Looking up the name just associated finds the new body. -/
theorem lookupTemplate_add_same : ∀ (reg : Registry) (n b : String),
    lookupTemplate (addTemplate reg n b) n = some b := by
  intro reg n b
  induction reg with
  | nil => simp [addTemplate, lookupTemplate]
  | cons p rest ih =>
    obtain ⟨n0, b0⟩ := p
    by_cases h : n0 = n
    · simpa [addTemplate, h] using ih
    · simp [addTemplate, lookupTemplate, h, ih]

/-- Associating one name leaves every other name's lookup unchanged. -/
theorem lookupTemplate_add_other : ∀ (reg : Registry) (n b m : String), m ≠ n →
    lookupTemplate (addTemplate reg n b) m = lookupTemplate reg m := by
  intro reg n b m hmn
  induction reg with
  | nil =>
    have hnm : n ≠ m := fun e => hmn e.symm
    simp [addTemplate, lookupTemplate, hnm]
  | cons p rest ih =>
    obtain ⟨n0, b0⟩ := p
    by_cases h : n0 = n
    · have hn0m : n0 ≠ m := fun e => hmn (e ▸ h)
      simp only [addTemplate, if_pos h, ih, lookupTemplate, if_neg hn0m]
    · simp only [addTemplate, if_neg h, lookupTemplate]
      by_cases h2 : n0 = m
      · simp [h2]
      · simp [h2, ih]

/-- A name registered before the walk continues is still registered when the
walk finishes: no step of `walkTemplates` removes an association. -/
theorem walkTemplates_mono (parseOk : String → Bool) :
    ∀ (tree : List WalkItem) (reg reg' : Registry) (n : String),
    walkTemplates parseOk reg tree = .ok reg' →
    (lookupTemplate reg n).isSome = true → (lookupTemplate reg' n).isSome = true := by
  intro tree
  induction tree with
  | nil =>
    intro reg reg' n h hn
    simp only [walkTemplates, Except.ok.injEq] at h
    subst h
    exact hn
  | cons item rest ih =>
    intro reg reg' n h hn
    cases item with
    | dir p =>
      simp only [walkTemplates] at h
      exact ih _ _ n h hn
    | walkErr m => simp [walkTemplates] at h
    | file p re b =>
      cases re with
      | some m => simp [walkTemplates] at h
      | none =>
        simp only [walkTemplates] at h
        by_cases hp : parseOk b
        · rw [if_pos hp] at h
          refine ih _ _ n h ?_
          by_cases hn2 : n = logicalName p
          · rw [hn2, lookupTemplate_add_same]
            rfl
          · rw [lookupTemplate_add_other _ _ _ _ hn2]
            exact hn
        · rw [if_neg hp] at h
          exact ih _ _ n h hn

/-- Every non-directory file of the walked tree whose body parses is
registered under its logical name by the time the walk finishes. -/
theorem walkTemplates_registers (parseOk : String → Bool) :
    ∀ (tree : List WalkItem) (reg reg' : Registry) (path body : String),
    walkTemplates parseOk reg tree = .ok reg' →
    WalkItem.file path none body ∈ tree → parseOk body = true →
    (lookupTemplate reg' (logicalName path)).isSome = true := by
  intro tree
  induction tree with
  | nil =>
    intro reg reg' path body _ hmem
    exact absurd hmem (List.not_mem_nil _)
  | cons item rest ih =>
    intro reg reg' path body h hmem hok
    rcases List.mem_cons.mp hmem with heq | hmem'
    · subst heq
      simp only [walkTemplates] at h
      rw [if_pos hok] at h
      exact walkTemplates_mono parseOk rest _ _ _ h
        (by rw [lookupTemplate_add_same]; rfl)
    · cases item with
      | dir p =>
        simp only [walkTemplates] at h
        exact ih _ _ _ _ h hmem' hok
      | walkErr m => simp [walkTemplates] at h
      | file p re b =>
        cases re with
        | some m => simp [walkTemplates] at h
        | none =>
          simp only [walkTemplates] at h
          by_cases hp : parseOk b
          · rw [if_pos hp] at h
            exact ih _ _ _ _ h hmem' hok
          · rw [if_neg hp] at h
            exact ih _ _ _ _ h hmem' hok

/-- Claim C8: every non-directory file of the embedded template tree is
registered under the logical name obtained by stripping the leading
`templates/` segment and the trailing `.tmpl` extension from its path, and
after bootstrap rendering that name (with suitable data) succeeds for a
well-formed (parsing) template body. -/
theorem c8_registry_names_render (parseOk : String → Bool) (tree : List WalkItem)
    (path body : String) (reg : Registry)
    (hmem : WalkItem.file path none body ∈ tree)
    (hok : parseOk body = true)
    (hload : loadTemplates parseOk tree = .ok reg) :
    (lookupTemplate reg (logicalName path)).isSome = true
    ∧ render reg (logicalName path) = .ok () := by
  have h1 := walkTemplates_registers parseOk tree [] reg path body hload hmem hok
  refine ⟨h1, ?_⟩
  rcases hlk : lookupTemplate reg (logicalName path) with _ | b
  · rw [hlk] at h1
    simp at h1
  · simp [render, hlk]

/-- Claim C8 witness: walking a tree with the single file
`templates/hello.tmpl` (whose body parses) registers and renders the name
`hello`. -/
theorem c8_registry_names_render_witness :
    (lookupTemplate [("hello", "Hello")] (logicalName "templates/hello.tmpl")).isSome = true
    ∧ render [("hello", "Hello")] (logicalName "templates/hello.tmpl") = .ok () :=
  c8_registry_names_render (fun _ => true)
    [WalkItem.dir ".", WalkItem.dir "templates",
      WalkItem.file "templates/hello.tmpl" none "Hello"]
    "templates/hello.tmpl" "Hello" [("hello", "Hello")]
    (by simp) rfl rfl

/-- Claim C9: with `ADMIN_PATH` configured to `/ops/`, the resolved admin
path prefix is `/ops/` and every request whose path begins with `/ops/` is
dispatched to the admin handler, whose response body is the literal
`Admin foo`; every request whose path does not begin with `/ops/` falls
through to the primary handler. -/
theorem c9_admin_dispatch (env : Env) (p q : String)
    (hconf : env "ADMIN_PATH" = some "/ops/")
    (hp : hasPre p "/ops/" = true)
    (hq : hasPre q "/ops/" = false) :
    fetchEnvDef env "ADMIN_PATH" "/admin/" = "/ops/"
    ∧ routeOf (fetchEnvDef env "ADMIN_PATH" "/admin/") p = ServedBy.admin
    ∧ adminResponseBody = "Admin foo"
    ∧ routeOf (fetchEnvDef env "ADMIN_PATH" "/admin/") q = ServedBy.primary := by
  have hdef : fetchEnvDef env "ADMIN_PATH" "/admin/" = "/ops/" := by
    simp [fetchEnvDef, hconf]
  refine ⟨hdef, ?_, rfl, ?_⟩
  · rw [hdef]
    simp [routeOf, hp]
  · rw [hdef]
    simp [routeOf, hq]

/-- Claim C9 witness: with `ADMIN_PATH=/ops/` in the environment,
`/ops/anything` is served by the admin handler (body `Admin foo`) and
`/other` by the primary handler. -/
theorem c9_admin_dispatch_witness :
    fetchEnvDef (fun x => if x = "ADMIN_PATH" then some "/ops/" else none)
        "ADMIN_PATH" "/admin/" = "/ops/"
    ∧ routeOf (fetchEnvDef (fun x => if x = "ADMIN_PATH" then some "/ops/" else none)
        "ADMIN_PATH" "/admin/") "/ops/anything" = ServedBy.admin
    ∧ adminResponseBody = "Admin foo"
    ∧ routeOf (fetchEnvDef (fun x => if x = "ADMIN_PATH" then some "/ops/" else none)
        "ADMIN_PATH" "/admin/") "/other" = ServedBy.primary :=
  c9_admin_dispatch (fun x => if x = "ADMIN_PATH" then some "/ops/" else none)
    "/ops/anything" "/other" rfl (by decide) (by decide)

end RsvpMain
